import Mathlib

/-!
Shallow embedding of `src/frontend/app/page.tsx` (tfhe-playground), the
client of a private-voting demo: Zupass PCD credential flow plus TFHE
encryption of votes.  JavaScript numbers that flow through the page are
modelled as rationals (`ℚ`); `NaN` is modelled by `Option.none` at the
point where the code branches on `isNaN`.  External library calls (the
TFHE encrypt/serialize functions, the Zupass proof verification) are
modelled symbolically: a ciphertext is an opaque wrapper of the plaintext
and the key it was encrypted under, and the outcomes of the library
checks arrive as data on the corresponding events.
-/

namespace TfhePlayground

/-- A JavaScript number as handled by the page (only stored and converted
to `BigInt`, never computed with), modelled as a rational; `NaN` is
represented as `none` where the code checks `isNaN`. -/
abbrev JsNum := ℚ

/-- The three fixed voting options rendered by the page
(`["project1", "project2", "project3"]`). -/
inductive Project where
  | project1
  | project2
  | project3
deriving DecidableEq

/-- The `inputValues` state:
`useState({ project1: 0, project2: 0, project3: 0 })`. -/
structure InputValues where
  project1 : JsNum
  project2 : JsNum
  project3 : JsNum
deriving DecidableEq

/-- Field lookup on `inputValues` by project key. -/
def InputValues.get (iv : InputValues) : Project → JsNum
  | .project1 => iv.project1
  | .project2 => iv.project2
  | .project3 => iv.project3

/-- Modelled from the spec: the TFHE compact public key fetched from the
key distribution endpoint is opaque to the page (`~~/utils/tfhe` is
outside `src/`); it is modelled as an abstract handle. -/
structure TfheCompactPublicKey where
  keyId : Nat
deriving DecidableEq

/-- Modelled from the spec: a TFHE ciphertext (`encrypt` lives in
`~~/utils/tfhe`, outside `src/`); modelled symbolically as the plaintext
wrapped together with the key it was encrypted under, so that theorems
can state which plaintext a ciphertext encrypts without giving the page
any way to look inside it. -/
structure Ciphertext where
  value : Int
  keyId : Nat
deriving DecidableEq

/-- Modelled from the spec: the symbolic ciphertext an in-range
encryption produces.  This is the raw ciphertext construction only; the
adapter's value-domain check and its `EncodingError::OutOfRange` failure
path (spec 4.3) are modelled separately by `tfheEncrypt` below, which
returns this ciphertext exactly on in-range values. -/
def encrypt (v : Int) (k : TfheCompactPublicKey) : Ciphertext :=
  { value := v, keyId := k.keyId }

/-- Modelled from the spec: the error taxonomy of the EncryptionScheme
adapter's encoding step — a value outside the plaintext domain fails
with `EncodingError::OutOfRange`. -/
inductive EncodingError where
  | outOfRange
deriving DecidableEq

/-- Modelled from the spec: `encrypt(value, key)` of the EncryptionScheme
adapter in `~~/utils/tfhe` (outside `src/`), with its failure path: the
value domain is constrained to the scheme's plaintext modulus — the spec
leaves the concrete modulus unspecified (its section 9 open question), so
it is the explicit parameter `m` — and a value outside the non-negative
bounded range fails with `EncodingError::OutOfRange`; an in-range value
yields the symbolic ciphertext of `encrypt`. -/
def tfheEncrypt (m : Nat) (v : Int) (k : TfheCompactPublicKey) :
    Except EncodingError Ciphertext :=
  if 0 ≤ v ∧ v < (m : Int) then .ok (encrypt v k) else .error .outOfRange

/-- Modelled from the spec: `Array.from(vote.serialize())`, the byte
serialization of a ciphertext, symbolic (injective wrapper). -/
structure SerializedCiphertext where
  ct : Ciphertext
deriving DecidableEq

/-- Serialization of a ciphertext as performed before submission. -/
def serializeCt (c : Ciphertext) : SerializedCiphertext :=
  { ct := c }

/-- The client state held by the `Home` component's `useState` hooks. -/
structure ClientState where
  verifiedFrontend : Bool
  verifiedBackend : Bool
  pcd : Option String
  publicKey : Option TfheCompactPublicKey
  inputValues : InputValues
deriving DecidableEq

/-- The initial state of the component's hooks:
`useState(false)`, `useState(false)`, `useState<string>()`,
`useState<TfheCompactPublicKey | null>(null)`,
`useState({ project1: 0, project2: 0, project3: 0 })`. -/
def initialState : ClientState :=
  { verifiedFrontend := false
    verifiedBackend := false
    pcd := none
    publicKey := none
    inputValues := { project1 := 0, project2 := 0, project3 := 0 } }

/-- `handleInputChange`: computes `Number(e.target.value)` (the argument
`value`, `none` when the result is `NaN`) and updates the targeted
project's entry only when `!isNaN(value)`. -/
def handleInputChange (iv : InputValues) (project : Project)
    (value : Option JsNum) : InputValues :=
  match value with
  | none => iv
  | some v =>
    match project with
    | .project1 => { iv with project1 := v }
    | .project2 => { iv with project2 := v }
    | .project3 => { iv with project3 := v }

/-- JavaScript `BigInt(x)` on a `Number`: succeeds exactly on integral
values, throws a `RangeError` on any fractional value. -/
def bigIntOfNumber (q : JsNum) : Option Int :=
  if q.den = 1 then some q.num else none

/-- The JSON body built by `handleClick`:
`JSON.stringify({ votes: votesSerialized, pcd: pcd })`. -/
structure VoteSubmission where
  votes : List SerializedCiphertext
  pcd : Option String
deriving DecidableEq

/-- The JSON key under which the ciphertext list travels. -/
def votesKey : String := "votes"

/-- The JSON key under which the credential travels in the code. -/
def pcdKey : String := "pcd"

/-- The field name the spec prescribes for the credential in the
submission body. -/
def specProofFieldName : String := "proof"

/-- The keys present in the JSON text of the vote-submission body:
`JSON.stringify` keeps `votes` and keeps `pcd` unless `pcd` is
`undefined`, in which case the key is dropped. -/
def voteBodyKeys (sub : VoteSubmission) : List String :=
  match sub.pcd with
  | some _ => [votesKey, pcdKey]
  | none => [votesKey]

/-- `handleClick(votes)`: when `publicKey` is non-null, encrypts each
vote, serializes the ciphertexts and POSTs
`{ votes: votesSerialized, pcd: pcd }` to the vote endpoint (`some`
submission); when `publicKey` is null the body of the `if` is skipped and
nothing at all happens (`none`: no encryption, no request, no
notification). -/
def handleClick (s : ClientState) (votes : List Int) : Option VoteSubmission :=
  match s.publicKey with
  | some pk =>
      some { votes := votes.map (fun v => serializeCt (encrypt v pk))
             pcd := s.pcd }
  | none => none

/-- Modelled from the spec: `votes.map(vote => encrypt(vote, publicKey))`
run against the adapter with its failure path: the votes are encrypted in
order and the first `OutOfRange` throw aborts the rest of the map, as the
thrown JavaScript error would. -/
def encryptAll (m : Nat) (pk : TfheCompactPublicKey) :
    List Int → Except EncodingError (List Ciphertext)
  | [] => .ok []
  | v :: vs =>
      match tfheEncrypt m v pk with
      | .error e => .error e
      | .ok c =>
          match encryptAll m pk vs with
          | .error e => .error e
          | .ok cs => .ok (c :: cs)

/-- `handleClick` as it executes against the spec-faithful adapter
`tfheEncrypt`: with no key the handler silently does nothing (`none`);
with a key it hands every vote to the adapter unvalidated — the source
puts no check between the `BigInt` arguments and the `encrypt` call —
and an `OutOfRange` throw propagates out of the uncaught `map`,
aborting the handler before the `fetch`, so the result is either the
submission (all votes in range) or the adapter's error with no network
call. -/
def handleClickChecked (m : Nat) (s : ClientState) (votes : List Int) :
    Option (Except EncodingError VoteSubmission) :=
  match s.publicKey with
  | some pk =>
      match encryptAll m pk votes with
      | .error e => some (.error e)
      | .ok cts => some (.ok { votes := cts.map serializeCt, pcd := s.pcd })
  | none => none

/-- The watermark the page passes to `zuAuthPopup` in `getProof`: the
fixed string constant `"123"`, identical across all interactions. -/
def getProofWatermark : String := "123"

/-- The result of deserializing the stored PCD string together with the
outcomes of the two external library checks `verifyProofFrontend` runs on
it, and the attributes the PCD discloses (which the code never reads). -/
structure DeserializedPCD where
  /-- Outcome of `ZKEdDSAEventTicketPCDPackage.verify(deserializedPCD)`. -/
  packageVerifies : Bool
  /-- Outcome of `isETHBerlinPublicKey(deserializedPCD.claim.signer)`. -/
  signerIsETHBerlin : Bool
  /-- Disclosed event id (revealed, but never inspected by the page). -/
  eventId : String
  /-- Disclosed product id (revealed, but never inspected by the page). -/
  productId : String
  /-- Watermark carried by the proof (never inspected by the page). -/
  watermark : String
deriving DecidableEq

/-- The acceptance condition of the client-side check in
`verifyProofFrontend`: the PCD passes iff the package verifies it and the
signer is the ETHBerlin key — no other field of the PCD is consulted. -/
def frontendAccepts (d : DeserializedPCD) : Bool :=
  d.packageVerifies && d.signerIsETHBerlin

/-- Modelled from the spec: the response of the proof verification
endpoint `/api/verify` (an API route outside `src/`), which returns
`\x7b verified: bool, message \x7d`. -/
structure VerifyResponse where
  verified : Bool
  message : String
deriving DecidableEq

/-- The notifications the page can raise (`notification.error` /
`notification.success`), identified by their message. -/
inductive Note where
  | noPcdFound
  | pcdInvalidFrontend
  | notSignedByETHBerlin
  | frontendVerified
  | failedToParsePcd
  | fetchError
  | backendVerified (message : String)
deriving DecidableEq

/-- `sendPCDToServer`: POSTs the stored PCD to `/api/verify`.  When the
`fetch` itself throws, an error notification is raised and the function
returns with no state change.  When any response arrives, the code calls
`setVerifiedBackend(true)` and raises the success notification showing
`data?.message` — without ever reading `data.verified`. -/
def sendPCDToServer (s : ClientState) (response : Option VerifyResponse) :
    ClientState × Option Note :=
  match response with
  | none => (s, some .fetchError)
  | some data =>
      ({ s with verifiedBackend := true }, some (.backendVerified data.message))

/-- `verifyProofFrontend`: errors when no PCD is stored; otherwise runs
the package verification and the signer check on the deserialized PCD,
raising the matching error and leaving the state unchanged on failure,
and setting `verifiedFrontend` on success. -/
def verifyProofFrontend (s : ClientState) (d : DeserializedPCD) :
    ClientState × Option Note :=
  match s.pcd with
  | none => (s, some .noPcdFound)
  | some _ =>
      if !d.packageVerifies then (s, some .pcdInvalidFrontend)
      else if !d.signerIsETHBerlin then (s, some .notSignedByETHBerlin)
      else ({ s with verifiedFrontend := true }, some .frontendVerified)

/-- Observable effects of a step: a vote submission POSTed to the vote
endpoint, a notification shown to the user, or a thrown exception (the
`RangeError` from `BigInt` on a fractional stored value, raised while
evaluating the Vote button's `onClick` arguments, before `handleClick`
is entered). -/
inductive Output where
  | submission (sub : VoteSubmission)
  | note (n : Note)
  | thrown
deriving DecidableEq

/-- The events the rendered page can process: the `useEffect` key load
resolving, the `zuAuthPopup` result returning from `getProof`, and the
clicks and input edits the JSX wires up.  `sendPCDToServer` is defined in
the component but attached to no rendered element, so no event invokes
it. -/
inductive UiEvent where
  /-- The mount `useEffect` resolves `loadPublicKey` and stores the key. -/
  | keyLoaded (k : TfheCompactPublicKey)
  /-- `getProof` popup returned `type === "pcd"`; the parsed `pcd` string
  is stored. -/
  | proofReceived (pcdStr : String)
  /-- `getProof` popup returned a non-`"pcd"` result. -/
  | proofFailed
  /-- Click on `2. Verify (frontend)`, with the deserialized PCD and the
  external check outcomes. -/
  | verifyFrontendClick (d : DeserializedPCD)
  /-- Click on `Vote`. -/
  | voteClick
  /-- Click on `Reset`. -/
  | resetClick
  /-- An input edit on one of the three project fields;
  `value` is `Number(e.target.value)`, `none` for `NaN`. -/
  | inputChange (p : Project) (value : Option JsNum)
deriving DecidableEq

/-- The Vote button's enabling condition: the JSX sets
`disabled=(!verifiedFrontend || verifiedBackend)`, so the button is
clickable iff `verifiedFrontend` is set and `verifiedBackend` is not. -/
def voteEnabled (s : ClientState) : Bool :=
  !(!s.verifiedFrontend || s.verifiedBackend)

/-- One step of the rendered page: `none` when the UI cannot deliver the
event in state `s` (the corresponding button is disabled, or the one-shot
effect already ran), otherwise the successor state and the observable
output of the handler. -/
def uiStep (s : ClientState) (e : UiEvent) :
    Option (ClientState × Option Output) :=
  match e with
  | .keyLoaded k =>
      match s.publicKey with
      | none => some ({ s with publicKey := some k }, none)
      | some _ => none
  | .proofReceived pcdStr =>
      match s.pcd with
      | none => some ({ s with pcd := some pcdStr }, none)
      | some _ => none
  | .proofFailed =>
      match s.pcd with
      | none => some (s, some (.note .failedToParsePcd))
      | some _ => none
  | .verifyFrontendClick d =>
      if s.pcd.isSome && !s.verifiedFrontend then
        let r := verifyProofFrontend s d
        some (r.1, r.2.map .note)
      else none
  | .voteClick =>
      if voteEnabled s then
        match bigIntOfNumber s.inputValues.project1,
              bigIntOfNumber s.inputValues.project2,
              bigIntOfNumber s.inputValues.project3 with
        | some v1, some v2, some v3 =>
            match handleClick s [v1, v2, v3] with
            | some sub => some (s, some (.submission sub))
            | none => some (s, none)
        | _, _, _ => some (s, some .thrown)
      else none
  | .resetClick =>
      some ({ s with verifiedFrontend := false }, none)
  | .inputChange p value =>
      some ({ s with inputValues := handleInputChange s.inputValues p value },
            none)

/-- Run a sequence of UI events from a state, collecting the outputs;
`none` if some event cannot be delivered. -/
def runTrace (s : ClientState) : List UiEvent →
    Option (ClientState × List Output)
  | [] => some (s, [])
  | e :: es =>
      match uiStep s e with
      | none => none
      | some (s', o) =>
          match runTrace s' es with
          | none => none
          | some (sf, os) => some (sf, o.toList ++ os)

/-- States the rendered page can reach from its initial state. -/
inductive Reachable : ClientState → Prop where
  | init : Reachable initialState
  | step {s s' : ClientState} {e : UiEvent} {o : Option Output} :
      Reachable s → uiStep s e = some (s', o) → Reachable s'

/-- A sample public key handle for concrete runs. -/
def keyZero : TfheCompactPublicKey := { keyId := 0 }

/-- A sample stored PCD string for concrete runs. -/
def pcdSample : String := "zk-ticket-pcd"

/-- A deserialized PCD that passes both library checks while carrying
attribute values no eligibility configuration would accept: an event id
and product id outside any eligibility set and a watermark that was not
derived for this submission. -/
def pcdValidSigned : DeserializedPCD :=
  { packageVerifies := true
    signerIsETHBerlin := true
    eventId := "some-other-event"
    productId := "some-other-product"
    watermark := "not-derived-for-this-submission" }

/-- The client state after the key load resolved, the proof was received
and the frontend verification succeeded, with all inputs still zero. -/
def readyState : ClientState :=
  { verifiedFrontend := true
    verifiedBackend := false
    pcd := some pcdSample
    publicKey := some keyZero
    inputValues := { project1 := 0, project2 := 0, project3 := 0 } }

/-- The submission a Vote click emits from `readyState`. -/
def zeroSub : VoteSubmission :=
  { votes := [serializeCt (encrypt 0 keyZero), serializeCt (encrypt 0 keyZero),
              serializeCt (encrypt 0 keyZero)]
    pcd := some pcdSample }

/-- A failed-verification message as the authoritative endpoint would
return it alongside `verified = false`. -/
def invalidProofMessage : String := "proof invalid"

/-- `readyState` with the backend flag additionally set, for frame
checks around Reset. -/
def backendVerifiedState : ClientState :=
  { readyState with verifiedBackend := true }

/-- The state after the mount effect stored the fetched key. -/
def keyLoadedState : ClientState :=
  { initialState with publicKey := some keyZero }

/-- `keyLoadedState` after the popup returned a PCD. -/
def proofStoredState : ClientState :=
  { keyLoadedState with pcd := some pcdSample }

/-- A state that passed the frontend check while the key fetch never
resolved: `publicKey` is still null. -/
def verifiedNoKeyState : ClientState :=
  { initialState with verifiedFrontend := true, pcd := some pcdSample }

/-- Inputs holding the non-integral value 3/2 (JavaScript 1.5) in
project1. -/
def fractionalInputs : InputValues :=
  { project1 := mkRat 3 2, project2 := 0, project3 := 0 }

/-- `readyState` after 1.5 was typed into project1. -/
def fractionalState : ClientState :=
  { readyState with inputValues := fractionalInputs }

/-- Inversion of a delivered Vote click: the JSX enables the button only
when `verifiedFrontend` is set and `verifiedBackend` is not. -/
theorem uiStep_voteClick_gate {s : ClientState} {r : ClientState × Option Output}
    (h : uiStep s .voteClick = some r) :
    s.verifiedFrontend = true ∧ s.verifiedBackend = false := by
  by_cases hf : s.verifiedFrontend = true
  · by_cases hb : s.verifiedBackend = true
    · simp [uiStep, voteEnabled, hf, hb] at h
    · exact ⟨hf, by simpa using hb⟩
  · simp [uiStep, voteEnabled, hf] at h

/-- Inversion of a Vote click that emitted a submission: the state is
unchanged, the key was loaded, all three stored values converted to
`BigInt`, and the body is the three serialized encryptions together with
the stored `pcd`. -/
theorem uiStep_voteClick_submission {s s' : ClientState} {sub : VoteSubmission}
    (h : uiStep s .voteClick = some (s', some (.submission sub))) :
    s' = s ∧ ∃ pk v1 v2 v3,
      s.publicKey = some pk ∧
      bigIntOfNumber s.inputValues.project1 = some v1 ∧
      bigIntOfNumber s.inputValues.project2 = some v2 ∧
      bigIntOfNumber s.inputValues.project3 = some v3 ∧
      sub = { votes := [serializeCt (encrypt v1 pk), serializeCt (encrypt v2 pk),
                        serializeCt (encrypt v3 pk)]
              pcd := s.pcd } := by
  simp only [uiStep] at h
  split at h
  · split at h
    · rename_i v1 v2 v3 h1 h2 h3
      split at h
      · rename_i sub' heq
        simp only [Option.some.injEq, Prod.mk.injEq, Output.submission.injEq] at h
        obtain ⟨hs, hsub⟩ := h
        subst hs
        unfold handleClick at heq
        split at heq
        · rename_i pk hpk
          simp only [Option.some.injEq] at heq
          subst heq
          subst hsub
          exact ⟨rfl, pk, v1, v2, v3, hpk, h1, h2, h3, by simp⟩
        · exact absurd heq (by simp)
      · simp at h
    · simp at h
  · simp at h

/-- Inversion of a delivered Vote click with no loaded public key: the
state is unchanged and the only possible output is the `BigInt` throw;
in particular no submission and no notification is produced. -/
theorem uiStep_voteClick_noKey {s s' : ClientState} {o : Option Output}
    (hk : s.publicKey = none) (h : uiStep s .voteClick = some (s', o)) :
    s' = s ∧ (o = none ∨ o = some .thrown) := by
  simp only [uiStep] at h
  split at h
  · split at h
    · rename_i v1 v2 v3 h1 h2 h3
      simp only [handleClick, hk] at h
      simp only [Option.some.injEq, Prod.mk.injEq] at h
      obtain ⟨hs, ho⟩ := h
      exact ⟨hs.symm, Or.inl ho.symm⟩
    · simp only [Option.some.injEq, Prod.mk.injEq] at h
      obtain ⟨hs, ho⟩ := h
      exact ⟨hs.symm, Or.inr ho.symm⟩
  · simp at h

/-- A single UI step preserves the invariant that a set
`verifiedFrontend` flag implies a stored PCD string. -/
theorem uiStep_pcd_inv {s s' : ClientState} {e : UiEvent} {o : Option Output}
    (h : uiStep s e = some (s', o))
    (inv : s.verifiedFrontend = true → s.pcd.isSome) :
    s'.verifiedFrontend = true → s'.pcd.isSome := by
  cases e with
  | keyLoaded k =>
    simp only [uiStep] at h
    split at h
    · simp only [Option.some.injEq, Prod.mk.injEq] at h
      obtain ⟨hs, _⟩ := h
      subst hs
      simpa using inv
    · simp at h
  | proofReceived pcdStr =>
    simp only [uiStep] at h
    split at h
    · simp only [Option.some.injEq, Prod.mk.injEq] at h
      obtain ⟨hs, _⟩ := h
      subst hs
      simp
    · simp at h
  | proofFailed =>
    simp only [uiStep] at h
    split at h
    · simp only [Option.some.injEq, Prod.mk.injEq] at h
      obtain ⟨hs, _⟩ := h
      subst hs
      exact inv
    · simp at h
  | verifyFrontendClick d =>
    simp only [uiStep] at h
    split at h
    · rename_i hen
      simp only [verifyProofFrontend] at h
      split at h
      · simp only [Option.some.injEq, Prod.mk.injEq] at h
        obtain ⟨hs, _⟩ := h
        subst hs
        exact inv
      · rename_i val hpcd
        split at h
        · simp only [Option.some.injEq, Prod.mk.injEq] at h
          obtain ⟨hs, _⟩ := h
          subst hs
          exact inv
        · split at h
          · simp only [Option.some.injEq, Prod.mk.injEq] at h
            obtain ⟨hs, _⟩ := h
            subst hs
            exact inv
          · simp only [Option.some.injEq, Prod.mk.injEq] at h
            obtain ⟨hs, _⟩ := h
            subst hs
            intro _
            simp [hpcd]
    · simp at h
  | voteClick =>
    simp only [uiStep] at h
    split at h
    · split at h
      · split at h
        · simp only [Option.some.injEq, Prod.mk.injEq] at h
          obtain ⟨hs, _⟩ := h
          subst hs
          exact inv
        · simp only [Option.some.injEq, Prod.mk.injEq] at h
          obtain ⟨hs, _⟩ := h
          subst hs
          exact inv
      · simp only [Option.some.injEq, Prod.mk.injEq] at h
        obtain ⟨hs, _⟩ := h
        subst hs
        exact inv
    · simp at h
  | resetClick =>
    simp only [uiStep] at h
    simp only [Option.some.injEq, Prod.mk.injEq] at h
    obtain ⟨hs, _⟩ := h
    subst hs
    simp
  | inputChange p value =>
    simp only [uiStep] at h
    simp only [Option.some.injEq, Prod.mk.injEq] at h
    obtain ⟨hs, _⟩ := h
    subst hs
    simpa using inv

/-- In every reachable state, a set `verifiedFrontend` flag implies a
stored PCD: the flag is only ever set by `verifyProofFrontend`, which
requires `pcd` to be present, and `pcd` is never cleared. -/
theorem reachable_verified_has_pcd {s : ClientState} (hs : Reachable s) :
    s.verifiedFrontend = true → s.pcd.isSome := by
  induction hs with
  | init => intro h; simp [initialState] at h
  | step hr hstep ih => exact uiStep_pcd_inv hstep ih

/-- C1: the claim says `verifiedBackend` becomes true only on a response
with `verified = true` and stays false on a failed verification.  The
code never reads the `verified` field: `sendPCDToServer` calls
`setVerifiedBackend(true)` and raises the Backend-Verified success
notification on every non-throwing response, here evaluated on a
response reporting `verified = false`. -/
theorem c1_backend_flag_ignores_verified :
    (sendPCDToServer initialState
        (some { verified := false, message := invalidProofMessage })).1.verifiedBackend
        = true ∧
    (sendPCDToServer initialState
        (some { verified := false, message := invalidProofMessage })).2
        = some (.backendVerified invalidProofMessage) := by
  decide

/-- C2 (counterexample): from the initial state, loading the key,
receiving a proof and passing only the client-side check enables the
Vote button, and clicking it POSTs a ballot — while `verifiedBackend` is
false and no backend verification ever ran (no rendered element invokes
`sendPCDToServer`), refuting the claim that both checks must succeed
before a submission can occur. -/
theorem c2_counterexample :
    runTrace initialState
        [.keyLoaded keyZero, .proofReceived pcdSample,
         .verifyFrontendClick pcdValidSigned, .voteClick] =
      some ({ verifiedFrontend := true, verifiedBackend := false,
              pcd := some pcdSample, publicKey := some keyZero,
              inputValues := { project1 := 0, project2 := 0, project3 := 0 } },
            [.note .frontendVerified, .submission zeroSub]) ∧
    readyState.verifiedBackend = false := by
  decide

/-- C2 (amended): a Vote click is delivered exactly under the JSX gate
`!(!verifiedFrontend || verifiedBackend)`: the untrusted frontend check
must have succeeded and the backend flag must be unset; the
authoritative backend check is never required, so the advisory
client-side check alone admits the ballot. -/
theorem c2_vote_needs_only_frontend_check {s : ClientState}
    {r : ClientState × Option Output}
    (h : uiStep s .voteClick = some r) :
    s.verifiedFrontend = true ∧ s.verifiedBackend = false :=
  uiStep_voteClick_gate h

/-- Witness for C2 at `readyState`: the gate conclusion evaluated on the
concrete state from which the Vote click emits `zeroSub`. -/
theorem c2_witness :
    readyState.verifiedFrontend = true ∧ readyState.verifiedBackend = false :=
  c2_vote_needs_only_frontend_check
    (show uiStep readyState .voteClick = some (readyState, some (.submission zeroSub))
      by decide)

/-- C3 (counterexample): a PCD that package-verifies and is
ETHBerlin-signed is accepted by `verifyProofFrontend` even though its
disclosed event id and product id match no eligibility configuration and
its watermark differs from the page's own watermark, which is itself the
fixed constant "123" shared across all interactions rather than a value
derived for this submission. -/
theorem c3_counterexample :
    (verifyProofFrontend { initialState with pcd := some pcdSample }
        pcdValidSigned).1.verifiedFrontend = true ∧
    pcdValidSigned.watermark ≠ getProofWatermark ∧
    getProofWatermark = "123" := by
  decide

/-- C3 (amended): the client-side check consults only the package
verification outcome and the signer check: its result is invariant under
arbitrary changes to the disclosed eventId, productId and watermark, and
the watermark the page sends with every proof request is the fixed
constant "123". -/
theorem c3_frontend_checks_validity_and_signer_only
    (s : ClientState) (d d' : DeserializedPCD)
    (hv : d.packageVerifies = d'.packageVerifies)
    (hs : d.signerIsETHBerlin = d'.signerIsETHBerlin) :
    verifyProofFrontend s d = verifyProofFrontend s d' ∧
    getProofWatermark = "123" := by
  refine ⟨?_, rfl⟩
  simp only [verifyProofFrontend, hv, hs]

/-- Witness for C3: the check result on `pcdValidSigned` coincides with
the result on a PCD carrying entirely different disclosed attributes. -/
theorem c3_witness :
    verifyProofFrontend initialState pcdValidSigned
        = verifyProofFrontend initialState
            { packageVerifies := true, signerIsETHBerlin := true,
              eventId := pcdSample, productId := pcdSample,
              watermark := getProofWatermark } ∧
    getProofWatermark = "123" :=
  c3_frontend_checks_validity_and_signer_only initialState pcdValidSigned
    { packageVerifies := true, signerIsETHBerlin := true,
      eventId := pcdSample, productId := pcdSample,
      watermark := getProofWatermark } rfl rfl

/-- An out-of-range value fails inside the encryption adapter with the
`OutOfRange` error. -/
theorem tfheEncrypt_out_of_range {m : Nat} {v : Int}
    (pk : TfheCompactPublicKey) (hv : v < 0 ∨ (m : Int) ≤ v) :
    tfheEncrypt m v pk = .error .outOfRange := by
  have hcond : ¬(0 ≤ v ∧ v < (m : Int)) := by rcases hv with hv | hv <;> omega
  simp [tfheEncrypt, hcond]

/-- The adapter succeeds with the symbolic ciphertext exactly on
in-range values: `tfheEncrypt` and the raw `encrypt` agree on the
plaintext domain and differ only in the failure path outside it. -/
theorem tfheEncrypt_ok_iff (m : Nat) (v : Int) (k : TfheCompactPublicKey) :
    tfheEncrypt m v k = .ok (encrypt v k) ↔ (0 ≤ v ∧ v < (m : Int)) := by
  unfold tfheEncrypt
  split <;> simp_all

/-- Encrypting a vote list containing an out-of-range value aborts with
the `OutOfRange` error the adapter raises at that value. -/
theorem encryptAll_error_of_mem {m : Nat} {pk : TfheCompactPublicKey}
    {v : Int} {votes : List Int} (hmem : v ∈ votes)
    (henc : tfheEncrypt m v pk = .error .outOfRange) :
    encryptAll m pk votes = .error .outOfRange := by
  induction votes with
  | nil => cases hmem
  | cons a l ih =>
    rcases List.mem_cons.mp hmem with rfl | hmem'
    · simp [encryptAll, henc]
    · cases ha : tfheEncrypt m a pk with
      | error e => cases e; simp [encryptAll, ha]
      | ok c => simp [encryptAll, ha, ih hmem']

/-- C4 (counterexample): no client-side validation stands before the
encryption call.  Against the spec-faithful adapter at a concrete
modulus (16): the negative vote is accepted by `handleInputChange` (it
is not `NaN`), converted by `BigInt`, and handed to the encryption
adapter, and what stops the submission is the adapter's own `OutOfRange`
failure raised inside the attempted encryption of `-1` — not a client
check performed before any encryption, as the claim states. -/
theorem c4_counterexample :
    handleInputChange initialState.inputValues .project1 (some (-1))
        = { project1 := -1, project2 := 0, project3 := 0 } ∧
    bigIntOfNumber (-1) = some (-1) ∧
    tfheEncrypt 16 (-1) keyZero = .error .outOfRange ∧
    handleClickChecked 16 readyState [-1, 0, 0]
        = some (.error .outOfRange) :=
  ⟨by decide, by decide, rfl, rfl⟩

/-- C4 (amended): the client performs no vote-magnitude validation of
its own: with the key loaded, every vote list is handed unvalidated to
the encryption adapter, and a list containing an out-of-range value
fails inside the attempted encryption with `EncodingError::OutOfRange` —
this throw, not a client check, is what aborts the handler before the
network call, so no submission is produced. -/
theorem c4_no_validation_before_encryption (m : Nat) {s : ClientState}
    {pk : TfheCompactPublicKey} {v : Int} {votes : List Int}
    (hk : s.publicKey = some pk) (hmem : v ∈ votes)
    (hv : v < 0 ∨ (m : Int) ≤ v) :
    handleClickChecked m s votes = some (.error .outOfRange) ∧
    ∀ sub, handleClickChecked m s votes ≠ some (.ok sub) := by
  have hall : encryptAll m pk votes = .error .outOfRange :=
    encryptAll_error_of_mem hmem (tfheEncrypt_out_of_range pk hv)
  have hres : handleClickChecked m s votes = some (.error .outOfRange) := by
    simp [handleClickChecked, hk, hall]
  exact ⟨hres, fun sub hsub => by simp [hres] at hsub⟩

/-- Witness for C4 at `readyState`, modulus 16 and the vote list holding
the stored `-1`: the handler returns the adapter's `OutOfRange` error
and no submission. -/
theorem c4_witness :
    handleClickChecked 16 readyState [-1, 0, 0] = some (.error .outOfRange) ∧
    ∀ sub, handleClickChecked 16 readyState [-1, 0, 0] ≠ some (.ok sub) :=
  c4_no_validation_before_encryption 16 rfl
    (show (-1 : Int) ∈ [-1, 0, 0] by decide) (Or.inl (by decide))

/-- C5: every ballot the client submits carries exactly three
ciphertexts — the encryptions of the stored project1, project2 and
project3 values, in that order — together with exactly one stored
credential. -/
theorem c5_ballot_shape {s s' : ClientState} {sub : VoteSubmission}
    (hs : Reachable s)
    (h : uiStep s .voteClick = some (s', some (.submission sub))) :
    sub.votes.length = 3 ∧
    (∃ p, sub.pcd = some p) ∧
    (∃ pk v1 v2 v3,
      s.publicKey = some pk ∧
      bigIntOfNumber s.inputValues.project1 = some v1 ∧
      bigIntOfNumber s.inputValues.project2 = some v2 ∧
      bigIntOfNumber s.inputValues.project3 = some v3 ∧
      sub.votes = [serializeCt (encrypt v1 pk), serializeCt (encrypt v2 pk),
                   serializeCt (encrypt v3 pk)]) := by
  obtain ⟨hf, hb⟩ := uiStep_voteClick_gate h
  obtain ⟨rfl, pk, v1, v2, v3, hpk, h1, h2, h3, hsub⟩ := uiStep_voteClick_submission h
  have hpcd := reachable_verified_has_pcd hs hf
  subst hsub
  refine ⟨rfl, ?_, pk, v1, v2, v3, hpk, h1, h2, h3, rfl⟩
  obtain ⟨p, hp⟩ := Option.isSome_iff_exists.mp hpcd
  exact ⟨p, by simp [hp]⟩

/-- Witness for C5 at `readyState`, reached by loading the key,
receiving a proof and passing the frontend check; the Vote click there
emits `zeroSub`. -/
theorem c5_witness :
    zeroSub.votes.length = 3 ∧
    (∃ p, zeroSub.pcd = some p) ∧
    (∃ pk v1 v2 v3,
      readyState.publicKey = some pk ∧
      bigIntOfNumber readyState.inputValues.project1 = some v1 ∧
      bigIntOfNumber readyState.inputValues.project2 = some v2 ∧
      bigIntOfNumber readyState.inputValues.project3 = some v3 ∧
      zeroSub.votes = [serializeCt (encrypt v1 pk), serializeCt (encrypt v2 pk),
                       serializeCt (encrypt v3 pk)]) := by
  have h1 : uiStep initialState (.keyLoaded keyZero)
      = some (keyLoadedState, none) := by decide
  have h2 : uiStep keyLoadedState (.proofReceived pcdSample)
      = some (proofStoredState, none) := by decide
  have h3 : uiStep proofStoredState (.verifyFrontendClick pcdValidSigned)
      = some (readyState, some (.note .frontendVerified)) := by decide
  have hreach : Reachable readyState :=
    Reachable.step (Reachable.step (Reachable.step Reachable.init h1) h2) h3
  exact c5_ballot_shape hreach
    (show uiStep readyState .voteClick
        = some (readyState, some (.submission zeroSub)) by decide)

/-- C6 (counterexample): the credential travels under the JSON key
`pcd`, not under the key `proof` the claim names: the body of a
submission from `readyState` has key list `[votesKey, pcdKey]`, and the
spec's field name is not among its keys. -/
theorem c6_counterexample :
    handleClick readyState [5] =
      some { votes := [serializeCt (encrypt 5 keyZero)], pcd := some pcdSample } ∧
    voteBodyKeys { votes := [serializeCt (encrypt 5 keyZero)], pcd := some pcdSample }
      = [votesKey, pcdKey] ∧
    specProofFieldName ∉
      voteBodyKeys { votes := [serializeCt (encrypt 5 keyZero)],
                     pcd := some pcdSample } := by
  decide

/-- C6 (amended): the submission body is a JSON object with exactly the
keys `votes` and `pcd`: `votes` holds one serialized ciphertext per vote
— each vote value appears only under encryption — and `pcd` holds the
stored credential; no plaintext vote field exists in the body. -/
theorem c6_body_has_votes_and_pcd_fields {s : ClientState}
    {pk : TfheCompactPublicKey} {p : String} (votes : List Int)
    (hk : s.publicKey = some pk) (hp : s.pcd = some p) :
    ∃ sub, handleClick s votes = some sub ∧
      voteBodyKeys sub = [votesKey, pcdKey] ∧
      sub.votes = votes.map (fun v => serializeCt (encrypt v pk)) ∧
      sub.pcd = some p := by
  refine ⟨{ votes := votes.map (fun v => serializeCt (encrypt v pk))
            pcd := s.pcd }, ?_, ?_, rfl, hp⟩
  · simp [handleClick, hk]
  · simp [voteBodyKeys, hp]

/-- Witness for C6: the body built at `readyState` for a single vote of
5 carries its only vote as a serialized ciphertext under the `votes` key
and the credential under the `pcd` key. -/
theorem c6_witness :
    handleClick readyState [5]
        = some { votes := [serializeCt (encrypt 5 keyZero)],
                 pcd := some pcdSample } ∧
    voteBodyKeys { votes := [serializeCt (encrypt 5 keyZero)],
                   pcd := some pcdSample }
        = [votesKey, pcdKey] := by
  obtain ⟨sub, h1, h2, h3, h4⟩ :=
    c6_body_has_votes_and_pcd_fields (s := readyState) [5] rfl rfl
  have hsub : sub = { votes := [serializeCt (encrypt 5 keyZero)],
                      pcd := some pcdSample } := by
    obtain ⟨sv, sp⟩ := sub
    simp only [List.map] at h3
    simp only at h3 h4
    simp [h3, h4]
  rw [hsub] at h1 h2
  exact ⟨h1, h2⟩

/-- C7 (counterexample): with no public key loaded and the frontend
check passed, a Vote click leaves the state unchanged and produces no
output at all: no encryption and no submission, but also no notification
— the `KeyError::Unreachable` message the claim requires is never
shown. -/
theorem c7_counterexample :
    uiStep verifiedNoKeyState .voteClick = some (verifiedNoKeyState, none) := by
  decide

/-- C7 (amended): if the public key is not loaded, a Vote click attempts
no encryption and sends no submission — but shows no error either: the
state is unchanged, and the output is nothing (the handler's `if`
silently falls through) or at most the `BigInt` throw; in no case is a
submission sent or a notification raised. -/
theorem c7_null_key_silent_noop {s s' : ClientState} {o : Option Output}
    (hk : s.publicKey = none) (h : uiStep s .voteClick = some (s', o)) :
    s' = s ∧ (∀ sub, o ≠ some (.submission sub)) ∧ (∀ n, o ≠ some (.note n)) := by
  obtain ⟨hs, ho⟩ := uiStep_voteClick_noKey hk h
  refine ⟨hs, ?_, ?_⟩ <;> rcases ho with rfl | rfl <;> simp

/-- Witness for C7 at the keyless verified state, where the Vote click
yields no output. -/
theorem c7_witness :
    verifiedNoKeyState = verifiedNoKeyState ∧
    (∀ sub, (none : Option Output) ≠ some (.submission sub)) ∧
    (∀ n, (none : Option Output) ≠ some (.note n)) :=
  c7_null_key_silent_noop rfl
    (show uiStep verifiedNoKeyState .voteClick
        = some (verifiedNoKeyState, none) by decide)

/-- C8: Reset sets `verifiedFrontend` to false and changes nothing else:
the backend flag, the stored pcd, the loaded key and all three inputs
are preserved and no output is produced — in particular backend-verified
status survives a Reset. -/
theorem c8_reset_frame {s s' : ClientState} {o : Option Output}
    (h : uiStep s .resetClick = some (s', o)) :
    s'.verifiedFrontend = false ∧ s'.verifiedBackend = s.verifiedBackend ∧
    s'.pcd = s.pcd ∧ s'.publicKey = s.publicKey ∧
    s'.inputValues = s.inputValues ∧ o = none := by
  simp only [uiStep, Option.some.injEq, Prod.mk.injEq] at h
  obtain ⟨hs, ho⟩ := h
  subst hs
  exact ⟨rfl, rfl, rfl, rfl, rfl, ho.symm⟩

/-- Witness for C8 at `backendVerifiedState`: Reset clears the frontend
flag while the set backend flag, pcd, key and inputs survive. -/
theorem c8_witness :
    ({ backendVerifiedState with verifiedFrontend := false } :
        ClientState).verifiedFrontend = false ∧
    ({ backendVerifiedState with verifiedFrontend := false } :
        ClientState).verifiedBackend = backendVerifiedState.verifiedBackend ∧
    ({ backendVerifiedState with verifiedFrontend := false } :
        ClientState).pcd = backendVerifiedState.pcd ∧
    ({ backendVerifiedState with verifiedFrontend := false } :
        ClientState).publicKey = backendVerifiedState.publicKey ∧
    ({ backendVerifiedState with verifiedFrontend := false } :
        ClientState).inputValues = backendVerifiedState.inputValues ∧
    (none : Option Output) = none :=
  c8_reset_frame
    (show uiStep backendVerifiedState .resetClick
        = some ({ backendVerifiedState with verifiedFrontend := false }, none)
      by decide)

/-- C9: `handleInputChange` leaves all three inputs unchanged when the
entered text parses to `NaN`, and otherwise updates exactly the targeted
project while preserving the other two. -/
theorem c9_input_change_frame (iv : InputValues) (p : Project) :
    handleInputChange iv p none = iv ∧
    ∀ v : JsNum, (handleInputChange iv p (some v)).get p = v ∧
      ∀ q : Project, q ≠ p → (handleInputChange iv p (some v)).get q = iv.get q := by
  refine ⟨rfl, fun v => ⟨?_, fun q hq => ?_⟩⟩
  · cases p <;> rfl
  · cases p <;> cases q <;> first | rfl | exact absurd rfl hq

/-- Witness for C9: updating project1 to 7 on inputs (1, 2, 3) keeps a
NaN edit inert, stores 7 in project1 and leaves project2 at 2. -/
theorem c9_witness :
    handleInputChange { project1 := 1, project2 := 2, project3 := 3 }
        .project1 none
      = { project1 := 1, project2 := 2, project3 := 3 } ∧
    (handleInputChange { project1 := 1, project2 := 2, project3 := 3 }
        .project1 (some 7)).get .project1 = 7 ∧
    (handleInputChange { project1 := 1, project2 := 2, project3 := 3 }
        .project1 (some 7)).get .project2
      = ({ project1 := 1, project2 := 2, project3 := 3 } :
          InputValues).get .project2 := by
  obtain ⟨h1, h2⟩ := c9_input_change_frame
    { project1 := 1, project2 := 2, project3 := 3 } .project1
  exact ⟨h1, (h2 7).1, (h2 7).2 .project2 (by decide)⟩

/-- C10: the non-integral value 3/2 (JavaScript 1.5) is accepted and
stored by `handleInputChange`, and the subsequent Vote click throws in
the `BigInt` conversion — evaluated while building the `onClick`
arguments, before `handleClick` runs — leaving the state unchanged with
no encryption and no submission, even though the key is loaded. -/
theorem c10_fractional_vote_throws_before_submission :
    handleInputChange readyState.inputValues .project1 (some (mkRat 3 2))
        = fractionalInputs ∧
    bigIntOfNumber (mkRat 3 2) = none ∧
    uiStep fractionalState .voteClick
      = some (fractionalState, some .thrown) := by
  decide

end TfhePlayground
